import Mathlib

/-!
Shallow embedding of the AI-Budget-Tracker statement-import wizard and its
API client, translated from `src/frontend/src/components/UploadView.jsx`,
`PasswordDialog` and `DateRangePicker` (bundled with `AnalyticsView.jsx` /
`UploadView.jsx`), `Dashboard`, and the axios client `expenseAPI`
(`src/unnamed/part_005`).  The Flask backend handlers are not part of the
repository snapshot under `src/`; where a claim depends on them they are
modelled from the specification (marked `Modelled from the spec:`).
-/

namespace BudgetTracker

/-- One suggested sub-range inside the `date_range` payload returned by the
extract endpoint (`DateRangePicker` reads `label`, `start_date`, `end_date`,
`days`). -/
structure SuggestedRange where
  label : String
  start_date : String
  end_date : String
  days : Nat
deriving DecidableEq, Repr

/-- The `date_range` object returned by the extract endpoint and stored by the
wizard (`DateRangePicker` reads `min_date`, `max_date`, `total_days`,
`suggested_ranges`). -/
structure DateRange where
  min_date : String
  max_date : String
  total_days : Nat
  suggested_ranges : List SuggestedRange
deriving DecidableEq, Repr

/-- One ambiguous-item grouping as it appears in the `select-date-range`
response (`index`, `description`, `amount`, `date`, `confidence`,
`reasoning`, `alternatives`, `suggested_category`, `transaction_count`).
Dates are modelled as day ordinals, amounts as integers. -/
structure AmbiguousItem where
  index : Nat
  description : String
  amount : Int
  date : Nat
  confidence : String
  reasoning : String
  alternatives : List String
  suggested_category : String
  transaction_count : Nat
deriving DecidableEq, Repr

/-- The import endpoint's success payload stored in the wizard's `result`
state (`imported`, `total`, `message`). -/
structure ImportResult where
  imported : Nat
  total : Nat
  message : String
deriving DecidableEq, Repr

/-- Possible outcomes of the phase-1 upload request as seen by
`handleUpload`: a `password_required` status, an `extracted` status with the
session payload, or a rejected promise (the `catch` branch) carrying the
user-facing message derived from the error response. -/
inductive UploadOutcome where
  | passwordRequired : UploadOutcome
  | extracted (session_id : String) (file_type : String) (date_range : DateRange)
      (preview : List String) (transaction_count : Nat) : UploadOutcome
  | requestFailed (message : String) : UploadOutcome
deriving DecidableEq, Repr

/-- Possible outcomes of the phase-2 `select-date-range` request as seen by
`handleDateRangeSelect`: `needs_clarification` with the ambiguous items, a
response without `needs_clarification` (all clear), or a rejected promise. -/
inductive RangeOutcome where
  | needsClarification (ambiguous_count : Nat) (ambiguous_items : List AmbiguousItem) : RangeOutcome
  | allClear : RangeOutcome
  | requestFailed (message : String) : RangeOutcome
deriving DecidableEq, Repr

/-- Possible outcomes of the phase-3 `import-transactions` request as seen by
`handleImport`: the success payload or a rejected promise. -/
inductive ImportOutcome where
  | success (imported : Nat) (total : Nat) (message : String) : ImportOutcome
  | requestFailed (message : String) : ImportOutcome
deriving DecidableEq, Repr

/-- JavaScript object update `obj[k] = v` for the `clarifications` mapping:
replaces the value at the first (and, for maps built by this function alone,
only) occurrence of the key, otherwise appends the pair. -/
def setKey : List (Nat × String) → Nat → String → List (Nat × String)
  | [], k, v => [(k, v)]
  | p :: m, k, v => if p.1 = k then (k, v) :: m else p :: setKey m k v

/-- JavaScript object read `obj[k]` for the `clarifications` mapping. -/
def lookupKey : List (Nat × String) → Nat → Option String
  | [], _ => none
  | p :: m, k => if p.1 = k then some p.2 else lookupKey m k

/-- The `initialClarifications` object built in `handleDateRangeSelect`:
`data.ambiguous_items.forEach(item => m[item.index] = item.suggested_category)`. -/
def initClarifications (items : List AmbiguousItem) : List (Nat × String) :=
  items.foldl (fun acc it => setKey acc it.index it.suggested_category) []

/-- One network request issued through `expenseAPI` by the wizard. -/
inductive ApiRequest where
  | uploadStatement (file : String) (password : Option String) (clear_previous : Bool) : ApiRequest
  | selectDateRange (session_id : Option String) (start_date : String) (end_date : String) : ApiRequest
  | importTransactions (session_id : Option String) (clarifications : List (Nat × String)) : ApiRequest
deriving DecidableEq, Repr

/-- The `useState` fields of the `UploadView` component.  `file` holds the
selected file's name (`none` for the JS `null`); the `clarifications` object
is an association list with JS-object update semantics. -/
structure UploadState where
  uploadPhase : String
  file : Option String
  fileType : Option String
  uploading : Bool
  error : String
  result : Option ImportResult
  sessionId : Option String
  dateRange : Option DateRange
  preview : List String
  showPasswordDialog : Bool
  passwordError : String
  showDateRangePicker : Bool
  showClarificationDialog : Bool
  ambiguousItems : List AmbiguousItem
  clarifications : List (Nat × String)
  processingClarifications : Bool
  clearPrevious : Bool
deriving DecidableEq, Repr

/-- The initial values passed to `useState` in `UploadView`. -/
def initState : UploadState :=
  { uploadPhase := "upload"
    file := none
    fileType := none
    uploading := false
    error := ""
    result := none
    sessionId := none
    dateRange := none
    preview := []
    showPasswordDialog := false
    passwordError := ""
    showDateRangePicker := false
    showClarificationDialog := false
    ambiguousItems := []
    clarifications := []
    processingClarifications := false
    clearPrevious := true }

/-- The regular-expression match `name.toLowerCase().match(/\.[^.]+$/)?.[0]`
used by `handleFileChange`: the final dot-initiated extension of the
lowercased file name, `none` when the name has no dot or ends with a dot. -/
def extOf (name : String) : Option String :=
  let rev := (name.toList.map Char.toLower).reverse
  let tail := rev.takeWhile (fun c => c ≠ '.')
  if tail.length = rev.length then none
  else if tail.isEmpty then none
  else some (String.mk ('.' :: tail.reverse))

/-- The `allowedExtensions` array in `handleFileChange`. -/
def allowedExtensions : List String := [".csv", ".pdf", ".xlsx", ".xls"]

/-- Error text set by `handleFileChange` on an invalid selection. -/
def invalidFileMessage : String := "Please select a valid file (CSV, PDF, or Excel)"

/-- The `handleFileChange` handler: accepts the file and resets the wizard
when the (lowercased) extension is allowed, otherwise sets the error text and
clears the stored file.  `selected = none` models an empty `e.target.files`. -/
def handleFileChange (selected : Option String) (s : UploadState) : UploadState :=
  match selected with
  | some f =>
    match extOf f with
    | some ext =>
      if allowedExtensions.contains ext then
        { s with file := some f, error := "", result := none,
                 uploadPhase := "upload", sessionId := none, dateRange := none,
                 preview := [], showPasswordDialog := false,
                 showDateRangePicker := false, showClarificationDialog := false,
                 ambiguousItems := [], clarifications := [] }
      else
        { s with error := invalidFileMessage, file := none }
    | none => { s with error := invalidFileMessage, file := none }
  | none => { s with error := invalidFileMessage, file := none }

/-- The `handleUpload` handler (phase 1).  Returns the post-handler state and
the list of requests issued: nothing when no file is selected, otherwise the
upload request followed by the outcome-dependent state updates (the `finally`
block clears `uploading` on every path). -/
def handleUpload (password : Option String) (outcome : UploadOutcome)
    (s : UploadState) : UploadState × List ApiRequest :=
  match s.file with
  | none => ({ s with error := "Please select a file first" }, [])
  | some f =>
    let s1 := { s with uploading := true, error := "", passwordError := "" }
    let req := ApiRequest.uploadStatement f password s1.clearPrevious
    match outcome with
    | UploadOutcome.passwordRequired =>
        ({ s1 with showPasswordDialog := true, uploading := false }, [req])
    | UploadOutcome.extracted sid ft dr pv _ =>
        ({ s1 with sessionId := some sid, fileType := some ft,
                   dateRange := some dr, preview := pv,
                   uploadPhase := "date_range", showPasswordDialog := false,
                   showDateRangePicker := true, uploading := false }, [req])
    | UploadOutcome.requestFailed msg =>
        ({ s1 with error := msg, uploading := false }, [req])

/-- The `handlePasswordCancel` handler: closes the dialog and clears the
selected file (the DOM file-input reset has no counterpart in the state). -/
def handlePasswordCancel (s : UploadState) : UploadState × List ApiRequest :=
  ({ s with showPasswordDialog := false, file := none }, [])

/-- The `handleImport` handler (phase 3).  `onUploadComplete` records whether
the host passed the completion callback prop.  Returns the post-handler
state, the requests issued, and the delay (ms) of a scheduled auto-return
(`setTimeout(onUploadComplete, 2000)` guarded by
`onUploadComplete && data.imported > 0`), or `none` when nothing is
scheduled. -/
def handleImport (onUploadComplete : Bool) (clarificationsData : List (Nat × String))
    (outcome : ImportOutcome) (s : UploadState) :
    UploadState × List ApiRequest × Option Nat :=
  let s1 := { s with processingClarifications := true, error := "" }
  let req := ApiRequest.importTransactions s1.sessionId clarificationsData
  match outcome with
  | ImportOutcome.success imported total msg =>
      ({ s1 with result := some ⟨imported, total, msg⟩,
                 showClarificationDialog := false, ambiguousItems := [],
                 clarifications := [], sessionId := none, file := none,
                 uploadPhase := "upload", processingClarifications := false },
       [req],
       if onUploadComplete ∧ 0 < imported then some 2000 else none)
  | ImportOutcome.requestFailed msg =>
      ({ s1 with error := msg, processingClarifications := false }, [req], none)

/-- The `handleDateRangeSelect` handler (phase 2).  On `needs_clarification`
it stores the items, seeds the clarifications object with the AI suggestions
and opens the clarification dialog; otherwise it immediately awaits
`handleImport({})` (whose outcome is `importOutcome`).  The `finally` block
clears `uploading` on every path. -/
def handleDateRangeSelect (onUploadComplete : Bool) (startDate endDate : String)
    (outcome : RangeOutcome) (importOutcome : ImportOutcome) (s : UploadState) :
    UploadState × List ApiRequest × Option Nat :=
  let s1 := { s with uploading := true, error := "" }
  let req := ApiRequest.selectDateRange s1.sessionId startDate endDate
  match outcome with
  | RangeOutcome.needsClarification _ items =>
      ({ s1 with ambiguousItems := items,
                 clarifications := initClarifications items,
                 uploadPhase := "clarify", showDateRangePicker := false,
                 showClarificationDialog := true, uploading := false },
       [req], none)
  | RangeOutcome.allClear =>
      let r := handleImport onUploadComplete [] importOutcome s1
      ({ r.1 with uploading := false }, req :: r.2.1, r.2.2)
  | RangeOutcome.requestFailed msg =>
      ({ s1 with error := msg, uploading := false }, [req], none)

/-- The `handleDateRangeCancel` handler: closes the picker, clears the file,
session id and date range, and returns the phase to `upload`. -/
def handleDateRangeCancel (s : UploadState) : UploadState × List ApiRequest :=
  ({ s with showDateRangePicker := false, file := none, sessionId := none,
            dateRange := none, uploadPhase := "upload" }, [])

/-- The `handleClarificationChange` handler: JS object spread update of the
`clarifications` mapping. -/
def handleClarificationChange (index : Nat) (category : String)
    (s : UploadState) : UploadState :=
  { s with clarifications := setKey s.clarifications index category }

/-- The `handleCancelClarification` handler: closes the dialog, drops the
items and mapping, clears the session id and file, and returns to `upload`. -/
def handleCancelClarification (s : UploadState) : UploadState × List ApiRequest :=
  ({ s with showClarificationDialog := false, ambiguousItems := [],
            clarifications := [], sessionId := none, file := none,
            uploadPhase := "upload" }, [])

/-- Props `UploadView` passes to `PasswordDialog`: `isOpen` is
`showPasswordDialog`, `error` is `passwordError`, `loading` is `uploading`. -/
structure PasswordDialogProps where
  isOpen : Bool
  error : String
  loading : Bool
deriving DecidableEq, Repr

/-- The `PasswordDialog` props as wired in `UploadView`'s JSX. -/
def passwordDialogProps (s : UploadState) : PasswordDialogProps :=
  { isOpen := s.showPasswordDialog, error := s.passwordError, loading := s.uploading }

/-- The error box `PasswordDialog` renders: present exactly when the dialog is
open and the `error` prop is truthy (`{error && <box>}` with the component
returning `null` when `isOpen` is false).  The component destructures only
`isOpen`, `onSubmit`, `onCancel` and `error`; the `loading` prop passed by
`UploadView` is never read. -/
def passwordDialogErrorShown (props : PasswordDialogProps) : Option String :=
  if props.isOpen then (if props.error = "" then none else some props.error) else none

/-- Whitespace trim of both ends of a character list, the semantics of the
JavaScript `String.prototype.trim`. -/
def trimChars (cs : List Char) : List Char :=
  ((cs.dropWhile Char.isWhitespace).reverse.dropWhile Char.isWhitespace).reverse

/-- Whitespace trim of both ends of a string, the semantics of the
JavaScript `String.prototype.trim`. -/
def jsTrim (s : String) : String :=
  String.mk (trimChars s.toList)

/-- The `disabled` attribute of the dialog's Unlock button,
`disabled={!password.trim()}`, as a function of the props and the locally
typed password.  The `loading` prop does not occur in the source expression. -/
def unlockButtonDisabled (_ : PasswordDialogProps) (typedPassword : String) : Bool :=
  jsTrim typedPassword = ""

/-- The `disabled` attribute of the Upload and Extract button,
`disabled={uploading}`. -/
def uploadButtonDisabled (s : UploadState) : Bool :=
  s.uploading

/-- The `disabled` attribute of `DateRangePicker`'s Apply Filter button,
`disabled={loading || (customMode && (!customStart || !customEnd))}`, with
`loading` wired to the wizard's `uploading` flag. -/
def applyFilterButtonDisabled (loading customMode : Bool)
    (customStart customEnd : String) : Bool :=
  loading ∨ (customMode ∧ (customStart = "" ∨ customEnd = ""))

/-- The `disabled` attribute of the clarification dialog's Confirm and Import
button, `disabled={processingClarifications}`. -/
def confirmImportButtonDisabled (s : UploadState) : Bool :=
  s.processingClarifications

/-- The page-level error box `UploadView` renders, `{error && <box>}`. -/
def pageErrorShown (s : UploadState) : Option String :=
  if s.error = "" then none else some s.error

/-- The success panel's redirect notice: `result.imported > 0 &&` renders
the text `Redirecting to Expenses view...`. -/
def redirectNoticeShown (s : UploadState) : Bool :=
  match s.result with
  | some r => 0 < r.imported
  | none => false

/-- One named multipart form field of the upload request body. -/
structure FormField where
  name : String
  value : String
deriving DecidableEq, Repr

/-- Default of `expenseAPI.uploadStatement`'s `password` parameter. -/
def uploadStatementDefaultPassword : Option String := none

/-- Default of `expenseAPI.uploadStatement`'s `clearPrevious` parameter. -/
def uploadStatementDefaultClearPrevious : Bool := true

/-- The multipart body assembled by `expenseAPI.uploadStatement`: the file,
then `clear_previous` rendered as the string `true` or `false`, then the
`password` field appended only when `if (password)` is truthy (neither the
JS `null` nor the empty string). -/
def uploadStatementFormData (file : String) (password : Option String)
    (clearPrevious : Bool) : List FormField :=
  [⟨"file", file⟩,
   ⟨"clear_previous", if clearPrevious then "true" else "false"⟩] ++
  (match password with
   | some p => if p = "" then [] else [⟨"password", p⟩]
   | none => [])

/-- Membership test for a named field in the assembled form body. -/
def hasFormField (body : List FormField) (n : String) : Bool :=
  body.any (fun fld => fld.name = n)

/-- Value lookup for a named field in the assembled form body. -/
def formFieldValue (body : List FormField) (n : String) : Option String :=
  match body.find? (fun fld => fld.name = n) with
  | some fld => some fld.value
  | none => none

/-- One user-triggered handler invocation of the wizard, bundled with the
outcome of the network request it awaits (if any). -/
inductive Event where
  | fileChange (selected : Option String) : Event
  | uploadClick (password : Option String) (outcome : UploadOutcome) : Event
  | passwordCancel : Event
  | dateRangeSelect (onUploadComplete : Bool) (startDate endDate : String)
      (outcome : RangeOutcome) (importOutcome : ImportOutcome) : Event
  | dateRangeCancel : Event
  | clarificationChange (index : Nat) (category : String) : Event
  | submitClarifications (onUploadComplete : Bool) (outcome : ImportOutcome) : Event
  | cancelClarification : Event

/-- The state transition of one handler invocation: the new component state,
the requests issued, and a scheduled auto-return delay if any. -/
def step (e : Event) (s : UploadState) : UploadState × List ApiRequest × Option Nat :=
  match e with
  | Event.fileChange selected => (handleFileChange selected s, [], none)
  | Event.uploadClick pw outcome =>
      let r := handleUpload pw outcome s
      (r.1, r.2, none)
  | Event.passwordCancel =>
      let r := handlePasswordCancel s
      (r.1, r.2, none)
  | Event.dateRangeSelect cb sd ed outcome io =>
      handleDateRangeSelect cb sd ed outcome io s
  | Event.dateRangeCancel =>
      let r := handleDateRangeCancel s
      (r.1, r.2, none)
  | Event.clarificationChange i c => (handleClarificationChange i c s, [], none)
  | Event.submitClarifications cb outcome =>
      handleImport cb s.clarifications outcome s
  | Event.cancelClarification =>
      let r := handleCancelClarification s
      (r.1, r.2, none)

/-- Whether one of the three full-screen modal overlays is mounted (password
dialog, date-range picker — which renders only when `dateRange` is set —,
clarification dialog); they block interaction with the page below. -/
def modalOpen (s : UploadState) : Prop :=
  s.showPasswordDialog = true ∨
  (s.showDateRangePicker = true ∧ s.dateRange ≠ none) ∨
  s.showClarificationDialog = true

/-- The UI guard under which each handler can actually fire: the triggering
control must be rendered and enabled in state `s`. -/
def enabled : Event → UploadState → Prop
  | Event.fileChange _, s => ¬ modalOpen s
  | Event.uploadClick _ _, s =>
      (s.file ≠ none ∧ s.uploadPhase = "upload" ∧ s.uploading = false) ∨
      s.showPasswordDialog = true
  | Event.passwordCancel, s => s.showPasswordDialog = true
  | Event.dateRangeSelect _ _ _ _ _, s =>
      s.showDateRangePicker = true ∧ s.dateRange ≠ none ∧ s.uploading = false
  | Event.dateRangeCancel, s =>
      s.showDateRangePicker = true ∧ s.dateRange ≠ none ∧ s.uploading = false
  | Event.clarificationChange _ _, s => s.showClarificationDialog = true
  | Event.submitClarifications _ _, s =>
      s.showClarificationDialog = true ∧ s.processingClarifications = false
  | Event.cancelClarification, s => s.showClarificationDialog = true

/-- States of the `UploadView` component reachable from its initial state
through enabled handler invocations. -/
inductive Reachable : UploadState → Prop where
  | init : Reachable initState
  | next (e : Event) (s : UploadState) :
      Reachable s → enabled e s → Reachable (step e s).1

/-- Example `date_range` payload used in concrete runs of the model. -/
def exampleDateRange : DateRange :=
  { min_date := "2024-01-01", max_date := "2024-03-31", total_days := 91,
    suggested_ranges := [{ label := "Last month", start_date := "2024-03-01",
                           end_date := "2024-03-31", days := 31 }] }

/-- Example ambiguous item used in concrete runs of the model. -/
def exampleItem : AmbiguousItem :=
  { index := 0, description := "Walmart Groceries", amount := 50, date := 5,
    confidence := "low", reasoning := "generic merchant", alternatives := ["Shopping"],
    suggested_category := "Groceries", transaction_count := 2 }

/-- Wizard state after selecting the file `a.pdf` in the initial state. -/
def sAfterFile : UploadState := handleFileChange (some "a.pdf") initState

/-- Wizard state after the upload request answered `password_required`. -/
def sPasswordState : UploadState :=
  (step (Event.uploadClick none UploadOutcome.passwordRequired) sAfterFile).1

/-- Wizard state after a password retry whose request failed with the
message `Incorrect password`. -/
def sRetryFailed : UploadState :=
  (step (Event.uploadClick (some "wrong")
    (UploadOutcome.requestFailed "Incorrect password")) sPasswordState).1

/-- Wizard state after a successful extraction (the `date_range` phase). -/
def sDateRangeState : UploadState :=
  (step (Event.uploadClick none
    (UploadOutcome.extracted "sid-1" "pdf" exampleDateRange ["row1"] 3)) sAfterFile).1

/-- Wizard state after the range filter reported one ambiguous item (the
`clarify` phase). -/
def sClarifyState : UploadState :=
  (step (Event.dateRangeSelect false "2024-01-01" "2024-03-31"
    (RangeOutcome.needsClarification 1 [exampleItem])
    (ImportOutcome.success 0 0 "")) sDateRangeState).1

/-- Modelled from the spec: one `ExtractedTransaction` held in an
`UploadSession` (spec section 3) — date, description, signed amount,
suggested category, confidence tag, reasoning, alternatives.  The backend
Flask handlers are absent from `src/`; only their axios callers are
present. -/
structure ExtractedTransaction where
  date : Nat
  description : String
  amount : Int
  suggested_category : String
  confidence : String
  reasoning : String
  alternatives : List String
deriving DecidableEq, Repr

/-- Modelled from the spec: the server-held `UploadSession` (spec sections 2
and 3): the extracted rows plus the filtered set and ambiguous list that the
Range Filter writes back in phase 2. -/
structure UploadSession where
  transactions : List ExtractedTransaction
  filtered : List ExtractedTransaction
  ambiguous : List AmbiguousItem
  fileType : String
deriving DecidableEq, Repr

/-- Modelled from the spec: the Session Store, keyed by opaque session id. -/
abbrev SessionStore : Type := List (String × UploadSession)

/-- Lookup of a session by id in the store. -/
def lookupSession : SessionStore → String → Option UploadSession
  | [], _ => none
  | p :: store, sid => if p.1 = sid then some p.2 else lookupSession store sid

/-- Replacement of a session's record in the store, keeping other ids. -/
def updateSession : SessionStore → String → UploadSession → SessionStore
  | [], _, _ => []
  | p :: store, sid, sess =>
    if p.1 = sid then (sid, sess) :: updateSession store sid sess
    else p :: updateSession store sid sess

/-- Deletion of a session from the store. -/
def removeSession : SessionStore → String → SessionStore
  | [], _ => []
  | p :: store, sid =>
    if p.1 = sid then removeSession store sid else p :: removeSession store sid

/-- Modelled from the spec: description normalization used for merchant-level
grouping of ambiguous items (spec section 4.2 speaks of an identical
normalized description; the exact normalization is unspecified, modelled as
trim plus lowercase). -/
def normalizeDesc (d : String) : String :=
  String.mk (trimChars (d.toList.map Char.toLower))

/-- Modelled from the spec: ambiguity test — confidence below the fixed
threshold, that is `medium` or `low` (spec section 3, AmbiguousItem). -/
def isAmbiguous (t : ExtractedTransaction) : Bool :=
  t.confidence = "medium" ∨ t.confidence = "low"

/-- Modelled from the spec: inclusive date filtering of the extracted rows
(spec section 4.2). -/
def filterByRange (txs : List ExtractedTransaction) (startDate endDate : Nat) :
    List ExtractedTransaction :=
  txs.filter (fun t => startDate ≤ t.date ∧ t.date ≤ endDate)

/-- Modelled from the spec: folding one ambiguous transaction into the
merchant-level groupings — an existing group with the same normalized
description gains `transaction_count`, otherwise a new group is appended
carrying the first-seen suggestion and the next index (spec section 4.2). -/
def addToGroups (groups : List AmbiguousItem) (t : ExtractedTransaction) :
    List AmbiguousItem :=
  if groups.any (fun g => normalizeDesc g.description = normalizeDesc t.description) then
    groups.map (fun g =>
      if normalizeDesc g.description = normalizeDesc t.description then
        { g with transaction_count := g.transaction_count + 1 }
      else g)
  else
    groups ++ [{ index := groups.length, description := t.description,
                 amount := t.amount, date := t.date, confidence := t.confidence,
                 reasoning := t.reasoning, alternatives := t.alternatives,
                 suggested_category := t.suggested_category,
                 transaction_count := 1 }]

/-- Modelled from the spec: the merchant-level grouping of the ambiguous
transactions within the filtered set. -/
def groupAmbiguous (filtered : List ExtractedTransaction) : List AmbiguousItem :=
  (filtered.filter isAmbiguous).foldl addToGroups []

/-- Modelled from the spec: error outcomes of the phase-2 endpoint (spec
section 4.2: unknown session id fails with NotFound, start after end with
InvalidRange). -/
inductive RangeError where
  | notFound : RangeError
  | invalidRange : RangeError
deriving DecidableEq, Repr

/-- Modelled from the spec: the payload of a successful phase-2 response. -/
inductive RangeResult where
  | needsClarification (ambiguous_count : Nat) (ambiguous_items : List AmbiguousItem) : RangeResult
  | allClear (filtered_count : Nat) : RangeResult
deriving DecidableEq, Repr

/-- Modelled from the spec: the `select_date_range` operation (spec sections
4.2 and 6): look the session up, validate the bounds, filter inclusively,
group the ambiguous rows, write the filtered set and ambiguous list back
into the session, and report either the ambiguous items or all-clear. -/
def select_date_range (store : SessionStore) (sid : String)
    (startDate endDate : Nat) :
    Except RangeError (RangeResult × SessionStore) :=
  match lookupSession store sid with
  | none => Except.error RangeError.notFound
  | some sess =>
    if endDate < startDate then Except.error RangeError.invalidRange
    else
      let filtered := filterByRange sess.transactions startDate endDate
      let items := groupAmbiguous filtered
      let store1 := updateSession store sid
        { sess with filtered := filtered, ambiguous := items }
      let res :=
        if items.isEmpty then RangeResult.allClear filtered.length
        else RangeResult.needsClarification items.length items
      Except.ok (res, store1)

/-- Modelled from the spec: one persisted expense row written by the
importer (date, amount, description, resolved category — spec section 4.3). -/
structure Expense where
  date : Nat
  description : String
  amount : Int
  category : String
deriving DecidableEq, Repr

/-- Modelled from the spec: error outcome of the phase-3 endpoint — a repeat
or unknown session id fails with SessionNotFound (spec sections 4.3 and 8). -/
inductive ImportError where
  | sessionNotFound : ImportError
deriving DecidableEq, Repr

/-- Modelled from the spec: the category resolved for one filtered
transaction — the user's override for its merchant group where present,
otherwise the original suggestion (spec section 4.3). -/
def resolveCategory (ambiguous : List AmbiguousItem)
    (clarifications : List (Nat × String)) (t : ExtractedTransaction) : String :=
  match ambiguous.find? (fun g =>
      normalizeDesc g.description = normalizeDesc t.description) with
  | some g =>
    match lookupKey clarifications g.index with
    | some c => c
    | none => t.suggested_category
  | none => t.suggested_category

/-- Modelled from the spec: the expense row derived from one filtered
transaction. -/
def toExpense (ambiguous : List AmbiguousItem)
    (clarifications : List (Nat × String)) (t : ExtractedTransaction) : Expense :=
  { date := t.date, description := t.description, amount := t.amount,
    category := resolveCategory ambiguous clarifications t }

/-- Modelled from the spec: the phase-3 import summary (counts of rows
imported versus total considered, spec section 3). -/
structure ImportSummary where
  imported : Nat
  total : Nat
deriving DecidableEq, Repr

/-- Modelled from the spec: the `import_transactions` operation (spec
sections 4.3 and 6): look the session up (a missing id fails with
SessionNotFound and commits nothing), resolve each filtered row's category,
skip exact duplicates of already-stored expenses silently (counted toward
total, not imported), append the rest to the expense table, and delete the
session — import is at-most-once per session. -/
def import_transactions (store : SessionStore) (sid : String)
    (clarifications : List (Nat × String)) (expenses : List Expense) :
    Except ImportError (ImportSummary × List Expense × SessionStore) :=
  match lookupSession store sid with
  | none => Except.error ImportError.sessionNotFound
  | some sess =>
    let rows := sess.filtered.map (toExpense sess.ambiguous clarifications)
    let fresh := rows.filter (fun r => ¬ expenses.contains r)
    Except.ok ({ imported := fresh.length, total := rows.length },
               expenses ++ fresh,
               removeSession store sid)

/-- Example extracted transaction used in concrete runs of the backend
model. -/
def exampleTx : ExtractedTransaction :=
  { date := 5, description := "Walmart Groceries", amount := 50,
    suggested_category := "Groceries", confidence := "low",
    reasoning := "generic merchant", alternatives := ["Shopping"] }

/-- Example session used in concrete runs of the backend model. -/
def exampleSession : UploadSession :=
  { transactions := [exampleTx], filtered := [exampleTx],
    ambiguous := [exampleItem], fileType := "csv" }

/-- Example one-session store used in concrete runs of the backend model. -/
def exampleStore : SessionStore := [("sid-1", exampleSession)]

/-- The expense row the example import writes. -/
def exampleExpense : Expense :=
  { date := 5, description := "Walmart Groceries", amount := 50,
    category := "Groceries" }

/-- The ambiguous grouping computed from the example transaction. -/
def exampleGroupedItem : AmbiguousItem :=
  { index := 0, description := "Walmart Groceries", amount := 50, date := 5,
    confidence := "low", reasoning := "generic merchant",
    alternatives := ["Shopping"], suggested_category := "Groceries",
    transaction_count := 1 }

/-- The example session after the range filter wrote back its results. -/
def exampleSessionFiltered : UploadSession :=
  { transactions := [exampleTx], filtered := [exampleTx],
    ambiguous := [exampleGroupedItem], fileType := "csv" }

/-- The example store after the first `select_date_range` call. -/
def exampleStoreFiltered : SessionStore := [("sid-1", exampleSessionFiltered)]

/-- State invariant of the wizard maintained by every enabled handler
invocation: the `upload` phase holds no session id; the password dialog only
shows in the `upload` phase over a selected file; the clarification dialog
only shows in the `clarify` phase and never together with the date-range
picker; and the picker showing outside the `date_range` phase forces a
cleared file (the straight-through-import leftover). -/
def WizardInv (s : UploadState) : Prop :=
  (s.uploadPhase = "upload" → s.sessionId = none) ∧
  (s.showPasswordDialog = true → s.uploadPhase = "upload") ∧
  (s.showClarificationDialog = true → s.uploadPhase = "clarify") ∧
  (s.showDateRangePicker = true → s.uploadPhase = "date_range" ∨ s.file = none) ∧
  (s.showPasswordDialog = true → s.file ≠ none) ∧
  (s.showClarificationDialog = true → s.showDateRangePicker = false)

theorem reachable_wizardInv (s : UploadState) (h : Reachable s) : WizardInv s := by
  induction h with
  | init =>
    refine ⟨?_, ?_, ?_, ?_, ?_, ?_⟩ <;> simp [initState]
  | next e s hr hen ih =>
    obtain ⟨h1, h2, h3, h4, h5, h6⟩ := ih
    cases e with
    | fileChange sel =>
      cases sel with
      | none =>
        simp only [step, handleFileChange]
        exact ⟨h1, h2, h3, fun _ => Or.inr rfl,
               fun hd => absurd (Or.inl hd) hen, h6⟩
      | some f =>
        cases hext : extOf f with
        | none =>
          simp only [step, handleFileChange, hext]
          exact ⟨h1, h2, h3, fun _ => Or.inr rfl,
                 fun hd => absurd (Or.inl hd) hen, h6⟩
        | some ext =>
          by_cases hall : allowedExtensions.contains ext = true
          · simp only [step, handleFileChange, hext, if_pos hall]
            exact ⟨fun _ => rfl, fun hq => absurd hq (by simp),
                   fun hq => absurd hq (by simp), fun hq => absurd hq (by simp),
                   fun hq => absurd hq (by simp), fun hq => absurd hq (by simp)⟩
          · simp only [step, handleFileChange, hext, if_neg hall]
            exact ⟨h1, h2, h3, fun _ => Or.inr rfl,
                   fun hd => absurd (Or.inl hd) hen, h6⟩
    | uploadClick pw outc =>
      cases hf : s.file with
      | none =>
        simp only [step, handleUpload, hf]
        exact ⟨h1, h2, h3,
               fun hq => (h4 hq).imp (fun hh => hh) (fun _ => rfl),
               fun hd => absurd hf (h5 hd), h6⟩
      | some f =>
        have hup : s.uploadPhase = "upload" := by
          rcases hen with ⟨_, hp, _⟩ | hd
          · exact hp
          · exact h2 hd
        have hcl : s.showClarificationDialog = false := by
          cases hc : s.showClarificationDialog
          · rfl
          · exact absurd ((h3 hc).symm.trans hup) (by decide)
        cases outc with
        | passwordRequired =>
          simp only [step, handleUpload, hf]
          refine ⟨h1, fun _ => hup, h3, ?_, fun _ => by simp, h6⟩
          intro hq
          exact (h4 hq).elim
            (fun hph => absurd (hup.symm.trans hph) (by decide))
            (fun hfn => Option.noConfusion (hf.symm.trans hfn))
        | extracted sid ft dr pv n =>
          simp only [step, handleUpload, hf]
          exact ⟨fun hq => absurd hq (by simp), fun hp => absurd hp (by simp),
                 fun hc => absurd (hcl.symm.trans hc) (by simp),
                 fun _ => Or.inl rfl, fun hp => absurd hp (by simp),
                 fun hc => absurd (hcl.symm.trans hc) (by simp)⟩
        | requestFailed msg =>
          simp only [step, handleUpload, hf]
          refine ⟨h1, h2, h3, ?_, fun _ => by simp, h6⟩
          intro hq
          exact Or.inl ((h4 hq).resolve_right
            (fun hfn => Option.noConfusion (hf.symm.trans hfn)))
    | passwordCancel =>
      have hd : s.showPasswordDialog = true := hen
      have hup : s.uploadPhase = "upload" := h2 hd
      have hcl : s.showClarificationDialog = false := by
        cases hc : s.showClarificationDialog
        · rfl
        · exact absurd ((h3 hc).symm.trans hup) (by decide)
      simp only [step, handlePasswordCancel]
      exact ⟨h1, fun hp => absurd hp (by simp),
             fun hc => absurd (hcl.symm.trans hc) (by simp),
             fun _ => Or.inr rfl, fun hp => absurd hp (by simp),
             fun hc => absurd (hcl.symm.trans hc) (by simp)⟩
    | dateRangeSelect cb sd ed outc io =>
      obtain ⟨hpk, hdr, hupl⟩ := hen
      have hcl : s.showClarificationDialog = false := by
        cases hc : s.showClarificationDialog
        · rfl
        · exact absurd ((h6 hc).symm.trans hpk) (by decide)
      have hpd : s.showPasswordDialog = false := by
        cases hp : s.showPasswordDialog
        · rfl
        · rcases h4 hpk with hph | hfn
          · exact absurd ((h2 hp).symm.trans hph) (by decide)
          · exact absurd hfn (h5 hp)
      cases outc with
      | needsClarification n items =>
        simp only [step, handleDateRangeSelect]
        exact ⟨fun hq => absurd hq (by simp),
               fun hp => absurd (hpd.symm.trans hp) (by simp),
               fun _ => rfl, fun hq => absurd hq (by simp),
               fun hp => absurd (hpd.symm.trans hp) (by simp),
               fun _ => rfl⟩
      | allClear =>
        cases io with
        | success imported total msg =>
          simp only [step, handleDateRangeSelect, handleImport]
          exact ⟨fun _ => rfl, fun hp => absurd (hpd.symm.trans hp) (by simp),
                 fun hc => absurd hc (by simp), fun _ => Or.inr rfl,
                 fun hp => absurd (hpd.symm.trans hp) (by simp),
                 fun hc => absurd hc (by simp)⟩
        | requestFailed msg =>
          simp only [step, handleDateRangeSelect, handleImport]
          exact ⟨h1, h2, h3, h4, h5, h6⟩
      | requestFailed msg =>
        simp only [step, handleDateRangeSelect]
        exact ⟨h1, h2, h3, h4, h5, h6⟩
    | dateRangeCancel =>
      obtain ⟨hpk, hdr, hupl⟩ := hen
      have hcl : s.showClarificationDialog = false := by
        cases hc : s.showClarificationDialog
        · rfl
        · exact absurd ((h6 hc).symm.trans hpk) (by decide)
      have hpd : s.showPasswordDialog = false := by
        cases hp : s.showPasswordDialog
        · rfl
        · rcases h4 hpk with hph | hfn
          · exact absurd ((h2 hp).symm.trans hph) (by decide)
          · exact absurd hfn (h5 hp)
      simp only [step, handleDateRangeCancel]
      exact ⟨fun _ => rfl, fun hp => absurd (hpd.symm.trans hp) (by simp),
             fun hc => absurd (hcl.symm.trans hc) (by simp),
             fun hq => absurd hq (by simp),
             fun hp => absurd (hpd.symm.trans hp) (by simp),
             fun hc => absurd (hcl.symm.trans hc) (by simp)⟩
    | clarificationChange i c =>
      simp only [step, handleClarificationChange]
      exact ⟨h1, h2, h3, h4, h5, h6⟩
    | submitClarifications cb outc =>
      obtain ⟨hcl, hproc⟩ := hen
      have hph : s.uploadPhase = "clarify" := h3 hcl
      have hpk : s.showDateRangePicker = false := h6 hcl
      have hpd : s.showPasswordDialog = false := by
        cases hp : s.showPasswordDialog
        · rfl
        · exact absurd ((h2 hp).symm.trans hph) (by decide)
      cases outc with
      | success imported total msg =>
        simp only [step, handleImport]
        exact ⟨fun _ => rfl, fun hp => absurd (hpd.symm.trans hp) (by simp),
               fun hc => absurd hc (by simp),
               fun hq => absurd (hpk.symm.trans hq) (by simp),
               fun hp => absurd (hpd.symm.trans hp) (by simp),
               fun hc => absurd hc (by simp)⟩
      | requestFailed msg =>
        simp only [step, handleImport]
        exact ⟨h1, h2, h3, h4, h5, h6⟩
    | cancelClarification =>
      have hcl : s.showClarificationDialog = true := hen
      have hph : s.uploadPhase = "clarify" := h3 hcl
      have hpk : s.showDateRangePicker = false := h6 hcl
      have hpd : s.showPasswordDialog = false := by
        cases hp : s.showPasswordDialog
        · rfl
        · exact absurd ((h2 hp).symm.trans hph) (by decide)
      simp only [step, handleCancelClarification]
      exact ⟨fun _ => rfl, fun hp => absurd (hpd.symm.trans hp) (by simp),
             fun hc => absurd hc (by simp),
             fun hq => absurd (hpk.symm.trans hq) (by simp),
             fun hp => absurd (hpd.symm.trans hp) (by simp),
             fun hc => absurd hc (by simp)⟩

theorem reachable_sAfterFile : Reachable sAfterFile :=
  Reachable.next (Event.fileChange (some "a.pdf")) initState Reachable.init
    (by simp only [enabled, modalOpen]; decide)

theorem reachable_sPasswordState : Reachable sPasswordState :=
  Reachable.next (Event.uploadClick none UploadOutcome.passwordRequired)
    sAfterFile reachable_sAfterFile (by simp only [enabled]; decide)

theorem reachable_sRetryFailed : Reachable sRetryFailed :=
  Reachable.next (Event.uploadClick (some "wrong")
      (UploadOutcome.requestFailed "Incorrect password"))
    sPasswordState reachable_sPasswordState (by simp only [enabled]; decide)

theorem reachable_sDateRangeState : Reachable sDateRangeState :=
  Reachable.next (Event.uploadClick none
      (UploadOutcome.extracted "sid-1" "pdf" exampleDateRange ["row1"] 3))
    sAfterFile reachable_sAfterFile (by simp only [enabled]; decide)

theorem reachable_sClarifyState : Reachable sClarifyState :=
  Reachable.next (Event.dateRangeSelect false "2024-01-01" "2024-03-31"
      (RangeOutcome.needsClarification 1 [exampleItem])
      (ImportOutcome.success 0 0 ""))
    sDateRangeState reachable_sDateRangeState (by simp only [enabled]; decide)

theorem lookupKey_setKey_self (m : List (Nat × String)) (k : Nat) (v : String) :
    lookupKey (setKey m k v) k = some v := by
  induction m with
  | nil => simp [setKey, lookupKey]
  | cons p m ih =>
    by_cases hp : p.1 = k
    · simp [setKey, lookupKey, hp]
    · simp [setKey, lookupKey, hp, ih]

theorem lookupKey_setKey_ne (m : List (Nat × String)) (k q : Nat) (v : String)
    (h : q ≠ k) : lookupKey (setKey m k v) q = lookupKey m q := by
  induction m with
  | nil => simp [setKey, lookupKey, Ne.symm h]
  | cons p m ih =>
    by_cases hp : p.1 = k
    · subst hp
      simp [setKey, lookupKey, Ne.symm h]
    · simp [setKey, lookupKey, hp, ih]

theorem lookupKey_clarFold_of_forall_ne (items : List AmbiguousItem)
    (acc : List (Nat × String)) (k : Nat) (h : ∀ it ∈ items, it.index ≠ k) :
    lookupKey (items.foldl (fun a it => setKey a it.index it.suggested_category) acc) k
      = lookupKey acc k := by
  induction items generalizing acc with
  | nil => rfl
  | cons hd tl ih =>
    rw [List.foldl_cons, ih _ (fun it hit => h it (List.mem_cons_of_mem _ hit))]
    exact lookupKey_setKey_ne _ _ _ _
      (fun hq => h hd (List.mem_cons_self _ _) hq.symm)

theorem lookupKey_clarFold_mem (items : List AmbiguousItem)
    (acc : List (Nat × String))
    (hnodup : (items.map AmbiguousItem.index).Nodup) (it : AmbiguousItem)
    (hit : it ∈ items) :
    lookupKey (items.foldl (fun a j => setKey a j.index j.suggested_category) acc)
      it.index = some it.suggested_category := by
  induction items generalizing acc with
  | nil => cases hit
  | cons hd tl ih =>
    simp only [List.map_cons, List.nodup_cons] at hnodup
    obtain ⟨hhd, htl⟩ := hnodup
    rw [List.foldl_cons]
    rcases List.mem_cons.mp hit with rfl | hmem
    · rw [lookupKey_clarFold_of_forall_ne tl _ it.index
        (fun j hj hje => hhd (hje ▸ List.mem_map_of_mem AmbiguousItem.index hj))]
      exact lookupKey_setKey_self _ _ _
    · exact ih _ htl hmem

theorem lookupKey_initClarifications (items : List AmbiguousItem)
    (hnodup : (items.map AmbiguousItem.index).Nodup) (it : AmbiguousItem)
    (hit : it ∈ items) :
    lookupKey (initClarifications items) it.index = some it.suggested_category :=
  lookupKey_clarFold_mem items [] hnodup it hit

theorem lookupSession_removeSession_self (store : SessionStore) (sid : String) :
    lookupSession (removeSession store sid) sid = none := by
  induction store with
  | nil => rfl
  | cons p store ih =>
    by_cases hp : p.1 = sid
    · simpa [removeSession, lookupSession, hp] using ih
    · simpa [removeSession, lookupSession, hp] using ih

theorem lookupSession_updateSession_self (store : SessionStore) (sid : String)
    (sess0 sess : UploadSession) (h : lookupSession store sid = some sess0) :
    lookupSession (updateSession store sid sess) sid = some sess := by
  induction store with
  | nil => simp [lookupSession] at h
  | cons p store ih =>
    by_cases hp : p.1 = sid
    · simp [updateSession, lookupSession, hp]
    · simp only [lookupSession, if_neg hp] at h
      simpa [updateSession, lookupSession, hp] using ih h

theorem updateSession_idem (store : SessionStore) (sid : String)
    (sess : UploadSession) :
    updateSession (updateSession store sid sess) sid sess
      = updateSession store sid sess := by
  induction store with
  | nil => rfl
  | cons p store ih =>
    by_cases hp : p.1 = sid
    · simp [updateSession, hp, ih]
    · simp [updateSession, hp, ih]

/-- C1: in the concrete run where the wizard sits in the password dialog and
the password retry's request fails with the message `Incorrect password`,
the dialog stays open but renders no error box — `passwordError` stays
empty and the message lands only in the page-level error area — refuting
the claim that the error message is displayed in the active password
dialog. -/
theorem C1_counterexample :
    sRetryFailed.showPasswordDialog = true ∧
    passwordDialogErrorShown (passwordDialogProps sRetryFailed) = none ∧
    pageErrorShown sRetryFailed = some "Incorrect password" := by
  exact ⟨rfl, rfl, rfl⟩

/-- C1 amended: a failed upload request issued from the open password dialog
keeps the dialog open (the wizard stays in the password state), but the
error message is stored in the page-level `error` state and shown in the
page error area; the dialog's own `passwordError` is cleared, so no message
is rendered inside the dialog. -/
theorem C1_wrong_password_keeps_dialog (s : UploadState) (pw : Option String)
    (f msg : String) (hdialog : s.showPasswordDialog = true)
    (hfile : s.file = some f) (hmsg : msg ≠ "") :
    (handleUpload pw (UploadOutcome.requestFailed msg) s).1.showPasswordDialog = true ∧
    pageErrorShown (handleUpload pw (UploadOutcome.requestFailed msg) s).1 = some msg ∧
    passwordDialogErrorShown
      (passwordDialogProps (handleUpload pw (UploadOutcome.requestFailed msg) s).1) = none := by
  refine ⟨?_, ?_, ?_⟩ <;>
    simp [handleUpload, hfile, hdialog, pageErrorShown, passwordDialogErrorShown,
          passwordDialogProps, hmsg]

/-- C1 witness: the amended statement at the concrete password-dialog state. -/
theorem C1_wrong_password_keeps_dialog_witness :
    (handleUpload (some "wrong") (UploadOutcome.requestFailed "Incorrect password")
      sPasswordState).1.showPasswordDialog = true ∧
    pageErrorShown (handleUpload (some "wrong")
      (UploadOutcome.requestFailed "Incorrect password") sPasswordState).1
      = some "Incorrect password" ∧
    passwordDialogErrorShown (passwordDialogProps (handleUpload (some "wrong")
      (UploadOutcome.requestFailed "Incorrect password") sPasswordState).1) = none :=
  C1_wrong_password_keeps_dialog sPasswordState (some "wrong") "a.pdf"
    "Incorrect password" (by decide) (by decide) (by decide)

/-- C2: for a date-range response with ambiguous items (whose indices are
pairwise distinct, as the backend's grouping produces), the wizard moves to
the `clarify` phase and the seeded clarifications mapping sends each
reported item's index to that item's suggested category; for a response
with no ambiguous items, the wizard immediately issues the import request
with an empty clarifications mapping. -/
theorem C2_date_range_response (s : UploadState) (cb : Bool) (sd ed : String)
    (n : Nat) (items : List AmbiguousItem) (io : ImportOutcome)
    (it : AmbiguousItem)
    (hnodup : (items.map AmbiguousItem.index).Nodup) (hit : it ∈ items) :
    (handleDateRangeSelect cb sd ed (RangeOutcome.needsClarification n items) io s).1.uploadPhase
      = "clarify" ∧
    lookupKey
      (handleDateRangeSelect cb sd ed (RangeOutcome.needsClarification n items) io s).1.clarifications
      it.index = some it.suggested_category ∧
    (handleDateRangeSelect cb sd ed RangeOutcome.allClear io s).2.1
      = [ApiRequest.selectDateRange s.sessionId sd ed,
         ApiRequest.importTransactions s.sessionId []] := by
  refine ⟨rfl, ?_, ?_⟩
  · exact lookupKey_initClarifications items hnodup it hit
  · cases io <;> rfl

/-- C2 witness: the statement at the `date_range` example state with the
single ambiguous example item and with the all-clear import outcome. -/
theorem C2_date_range_response_witness :
    (handleDateRangeSelect false "2024-01-01" "2024-03-31"
      (RangeOutcome.needsClarification 1 [exampleItem])
      (ImportOutcome.success 0 0 "") sDateRangeState).1.uploadPhase = "clarify" ∧
    lookupKey (handleDateRangeSelect false "2024-01-01" "2024-03-31"
      (RangeOutcome.needsClarification 1 [exampleItem])
      (ImportOutcome.success 0 0 "") sDateRangeState).1.clarifications
      exampleItem.index = some exampleItem.suggested_category ∧
    (handleDateRangeSelect false "2024-01-01" "2024-03-31" RangeOutcome.allClear
      (ImportOutcome.success 0 0 "") sDateRangeState).2.1
      = [ApiRequest.selectDateRange sDateRangeState.sessionId "2024-01-01" "2024-03-31",
         ApiRequest.importTransactions sDateRangeState.sessionId []] :=
  C2_date_range_response sDateRangeState false "2024-01-01" "2024-03-31" 1
    [exampleItem] (ImportOutcome.success 0 0 "") exampleItem (by decide) (by decide)

/-- C3: from a reachable `upload`-phase state with a selected file, the
upload handler opens the password dialog on a `password_required` status;
on an `extracted` status it stores the session id, date range and preview
and moves the wizard to the `date_range` phase; on a failed request the
wizard stays in the `upload` phase, the error message is shown, and no
session id is stored. -/
theorem C3_upload_outcomes (s : UploadState) (f : String) (pw : Option String)
    (sid ft : String) (dr : DateRange) (pv : List String) (n : Nat) (msg : String)
    (hreach : Reachable s) (hphase : s.uploadPhase = "upload")
    (hfile : s.file = some f) (hmsg : msg ≠ "") :
    (handleUpload pw UploadOutcome.passwordRequired s).1.showPasswordDialog = true ∧
    ((handleUpload pw (UploadOutcome.extracted sid ft dr pv n) s).1.sessionId = some sid ∧
     (handleUpload pw (UploadOutcome.extracted sid ft dr pv n) s).1.dateRange = some dr ∧
     (handleUpload pw (UploadOutcome.extracted sid ft dr pv n) s).1.preview = pv ∧
     (handleUpload pw (UploadOutcome.extracted sid ft dr pv n) s).1.uploadPhase = "date_range") ∧
    ((handleUpload pw (UploadOutcome.requestFailed msg) s).1.uploadPhase = "upload" ∧
     (handleUpload pw (UploadOutcome.requestFailed msg) s).1.sessionId = none ∧
     pageErrorShown (handleUpload pw (UploadOutcome.requestFailed msg) s).1 = some msg) := by
  have hsid : s.sessionId = none := (reachable_wizardInv s hreach).1 hphase
  refine ⟨?_, ⟨?_, ?_, ?_, ?_⟩, ⟨?_, ?_, ?_⟩⟩ <;>
    simp [handleUpload, hfile, hphase, hsid, pageErrorShown, hmsg]

/-- C3 witness: the statement at the concrete post-file-selection state. -/
theorem C3_upload_outcomes_witness :
    (handleUpload none UploadOutcome.passwordRequired sAfterFile).1.showPasswordDialog = true ∧
    ((handleUpload none (UploadOutcome.extracted "sid-1" "pdf" exampleDateRange ["row1"] 3)
        sAfterFile).1.sessionId = some "sid-1" ∧
     (handleUpload none (UploadOutcome.extracted "sid-1" "pdf" exampleDateRange ["row1"] 3)
        sAfterFile).1.dateRange = some exampleDateRange ∧
     (handleUpload none (UploadOutcome.extracted "sid-1" "pdf" exampleDateRange ["row1"] 3)
        sAfterFile).1.preview = ["row1"] ∧
     (handleUpload none (UploadOutcome.extracted "sid-1" "pdf" exampleDateRange ["row1"] 3)
        sAfterFile).1.uploadPhase = "date_range") ∧
    ((handleUpload none (UploadOutcome.requestFailed "Failed to upload file")
        sAfterFile).1.uploadPhase = "upload" ∧
     (handleUpload none (UploadOutcome.requestFailed "Failed to upload file")
        sAfterFile).1.sessionId = none ∧
     pageErrorShown (handleUpload none (UploadOutcome.requestFailed "Failed to upload file")
        sAfterFile).1 = some "Failed to upload file") :=
  C3_upload_outcomes sAfterFile "a.pdf" none "sid-1" "pdf" exampleDateRange
    ["row1"] 3 "Failed to upload file" reachable_sAfterFile (by decide) (by decide)
    (by decide)

/-- C4: from every reachable state with one of the three non-terminal
dialogs open, the matching cancel handler returns the wizard to the
`upload` phase with the session id cleared and the selected file cleared,
and issues no network request. -/
theorem C4_cancel_discards_session (s : UploadState) (hreach : Reachable s) :
    (s.showPasswordDialog = true →
      (handlePasswordCancel s).1.uploadPhase = "upload" ∧
      (handlePasswordCancel s).1.sessionId = none ∧
      (handlePasswordCancel s).1.file = none ∧
      (handlePasswordCancel s).2 = []) ∧
    (s.showDateRangePicker = true →
      (handleDateRangeCancel s).1.uploadPhase = "upload" ∧
      (handleDateRangeCancel s).1.sessionId = none ∧
      (handleDateRangeCancel s).1.file = none ∧
      (handleDateRangeCancel s).2 = []) ∧
    (s.showClarificationDialog = true →
      (handleCancelClarification s).1.uploadPhase = "upload" ∧
      (handleCancelClarification s).1.sessionId = none ∧
      (handleCancelClarification s).1.file = none ∧
      (handleCancelClarification s).2 = []) := by
  obtain ⟨h1, h2, h3, h4, h5, h6⟩ := reachable_wizardInv s hreach
  exact ⟨fun hd => ⟨h2 hd, h1 (h2 hd), rfl, rfl⟩,
         fun _ => ⟨rfl, rfl, rfl, rfl⟩,
         fun _ => ⟨rfl, rfl, rfl, rfl⟩⟩

/-- C4 witness: the statement discharged at the three concrete reachable
dialog states (password, date_range, clarify). -/
theorem C4_cancel_discards_session_witness :
    ((handlePasswordCancel sPasswordState).1.uploadPhase = "upload" ∧
     (handlePasswordCancel sPasswordState).1.sessionId = none ∧
     (handlePasswordCancel sPasswordState).1.file = none ∧
     (handlePasswordCancel sPasswordState).2 = []) ∧
    ((handleDateRangeCancel sDateRangeState).1.uploadPhase = "upload" ∧
     (handleDateRangeCancel sDateRangeState).1.sessionId = none ∧
     (handleDateRangeCancel sDateRangeState).1.file = none ∧
     (handleDateRangeCancel sDateRangeState).2 = []) ∧
    ((handleCancelClarification sClarifyState).1.uploadPhase = "upload" ∧
     (handleCancelClarification sClarifyState).1.sessionId = none ∧
     (handleCancelClarification sClarifyState).1.file = none ∧
     (handleCancelClarification sClarifyState).2 = []) :=
  ⟨(C4_cancel_discards_session sPasswordState reachable_sPasswordState).1 (by decide),
   (C4_cancel_discards_session sDateRangeState reachable_sDateRangeState).2.1 (by decide),
   (C4_cancel_discards_session sClarifyState reachable_sClarifyState).2.2 (by decide)⟩

/-- C5: counterexample — with the password dialog open during an
outstanding request (the `loading` prop passed as true) and a non-blank
typed password, the Unlock button is not disabled, because `PasswordDialog`
never reads the `loading` prop it is handed. -/
theorem C5_counterexample :
    unlockButtonDisabled { isOpen := true, error := "", loading := true }
      "secret" = false := by
  decide

/-- C5 amended: while a request is outstanding the upload button, the
date-range Apply Filter button and the clarification Confirm and Import
button are disabled, but the password dialog's Unlock button ignores the
`loading` prop entirely: it is disabled exactly when the trimmed typed
password is blank, whether or not a request is outstanding. -/
theorem C5_disabled_controls (s t : UploadState) (customMode : Bool)
    (cs ce : String) (props : PasswordDialogProps) (pw : String)
    (hs : s.uploading = true) (ht : t.processingClarifications = true) :
    uploadButtonDisabled s = true ∧
    applyFilterButtonDisabled s.uploading customMode cs ce = true ∧
    confirmImportButtonDisabled t = true ∧
    (unlockButtonDisabled props pw = true ↔ jsTrim pw = "") := by
  refine ⟨hs, ?_, ht, ?_⟩
  · simp [applyFilterButtonDisabled, hs]
  · simp [unlockButtonDisabled]

/-- C5 witness: the amended statement at concrete states and inputs. -/
theorem C5_disabled_controls_witness :
    uploadButtonDisabled { initState with uploading := true } = true ∧
    applyFilterButtonDisabled ({ initState with uploading := true }).uploading
      false "" "" = true ∧
    confirmImportButtonDisabled
      { initState with processingClarifications := true } = true ∧
    (unlockButtonDisabled { isOpen := true, error := "", loading := true }
      "secret" = true ↔ jsTrim "secret" = "") :=
  C5_disabled_controls { initState with uploading := true }
    { initState with processingClarifications := true } false "" ""
    { isOpen := true, error := "", loading := true } "secret" (by decide) (by decide)

/-- C6: divergence evidence — `Dashboard` renders `UploadView` without the
`onUploadComplete` prop, so after an import reporting one imported row no
auto-return is scheduled even though the success panel shows the
`Redirecting to Expenses view...` notice; the same import with the callback
present would schedule the 2000 ms auto-return, and a zero-row import
schedules none either way. -/
theorem C6_no_autoreturn_without_callback :
    (handleImport false [] (ImportOutcome.success 1 1 "ok") sClarifyState).2.2 = none ∧
    redirectNoticeShown
      (handleImport false [] (ImportOutcome.success 1 1 "ok") sClarifyState).1 = true ∧
    (handleImport true [] (ImportOutcome.success 1 1 "ok") sClarifyState).2.2 = some 2000 ∧
    (handleImport true [] (ImportOutcome.success 0 0 "ok") sClarifyState).2.2 = none := by
  refine ⟨?_, ?_, ?_, ?_⟩ <;> decide

/-- C7: a selected file whose lowercased name's extension is not among
`.csv`, `.pdf`, `.xlsx`, `.xls` is rejected client-side by
`handleFileChange`: the error text is set, no file is stored, and the
upload handler invoked on the resulting state issues no request. -/
theorem C7_invalid_extension_rejected (s : UploadState) (name : String)
    (pw : Option String) (outc : UploadOutcome)
    (h : (extOf name).all (fun ext => ! allowedExtensions.contains ext) = true) :
    (handleFileChange (some name) s).error = invalidFileMessage ∧
    (handleFileChange (some name) s).file = none ∧
    (handleUpload pw outc (handleFileChange (some name) s)).2 = [] := by
  cases hext : extOf name with
  | none =>
    refine ⟨?_, ?_, ?_⟩ <;> simp [handleFileChange, hext, handleUpload]
  | some ext =>
    rw [hext] at h
    simp only [Option.all_some, Bool.not_eq_true'] at h
    have hmem : ext ∉ allowedExtensions := by simpa using h
    refine ⟨?_, ?_, ?_⟩ <;> simp [handleFileChange, hext, hmem, handleUpload]

/-- C7 witness: the statement at the concrete disallowed file name. -/
theorem C7_invalid_extension_rejected_witness :
    (handleFileChange (some "virus.exe") initState).error = invalidFileMessage ∧
    (handleFileChange (some "virus.exe") initState).file = none ∧
    (handleUpload none UploadOutcome.passwordRequired
      (handleFileChange (some "virus.exe") initState)).2 = [] :=
  C7_invalid_extension_rejected initState "virus.exe" none
    UploadOutcome.passwordRequired (by decide)

/-- C8: import is at-most-once per session — a successful
`import_transactions` call deletes the `UploadSession`, and any repeat call
with the same session id fails with SessionNotFound instead of committing
any transactions again. -/
theorem C8_import_at_most_once (store : SessionStore) (sid : String)
    (clar clar2 : List (Nat × String)) (db db2 : List Expense)
    (out : ImportSummary) (store2 : SessionStore)
    (h : import_transactions store sid clar db = Except.ok (out, db2, store2)) :
    lookupSession store2 sid = none ∧
    import_transactions store2 sid clar2 db2
      = Except.error ImportError.sessionNotFound := by
  cases hls : lookupSession store sid with
  | none => simp [import_transactions, hls] at h
  | some sess =>
    simp only [import_transactions, hls, Except.ok.injEq, Prod.mk.injEq] at h
    obtain ⟨hout, hdb, hstore⟩ := h
    have hnone : lookupSession store2 sid = none := by
      rw [← hstore]
      exact lookupSession_removeSession_self store sid
    refine ⟨hnone, ?_⟩
    simp [import_transactions, hnone]

/-- C8 witness: the statement at the concrete one-session store. -/
theorem C8_import_at_most_once_witness :
    lookupSession [] "sid-1" = none ∧
    import_transactions [] "sid-1" [] [exampleExpense]
      = Except.error ImportError.sessionNotFound :=
  C8_import_at_most_once exampleStore "sid-1" [] [] [] [exampleExpense]
    { imported := 1, total := 1 } [] (by rfl)

/-- C9: `select_date_range` is idempotent — when a call on a store succeeds
with result `r1` and store `st1`, the identical call against `st1` returns
exactly the same result and store, ambiguous-item lists included. -/
theorem C9_select_date_range_idempotent (store : SessionStore) (sid : String)
    (sd ed : Nat) (r1 : RangeResult) (st1 : SessionStore)
    (h : select_date_range store sid sd ed = Except.ok (r1, st1)) :
    select_date_range st1 sid sd ed = Except.ok (r1, st1) := by
  cases hls : lookupSession store sid with
  | none => simp [select_date_range, hls] at h
  | some sess =>
    by_cases hrange : ed < sd
    · simp [select_date_range, hls, hrange] at h
    · simp only [select_date_range, hls, if_neg hrange, Except.ok.injEq,
        Prod.mk.injEq] at h
      obtain ⟨hr, hst⟩ := h
      subst hst
      have hl1 := lookupSession_updateSession_self store sid sess
        { sess with filtered := filterByRange sess.transactions sd ed,
                    ambiguous := groupAmbiguous (filterByRange sess.transactions sd ed) }
        hls
      simp only [select_date_range, hl1, if_neg hrange]
      rw [updateSession_idem, ← hr]

/-- C9 witness: the statement at the concrete one-session store. -/
theorem C9_select_date_range_idempotent_witness :
    select_date_range exampleStoreFiltered "sid-1" 1 31
      = Except.ok (RangeResult.needsClarification 1 [exampleGroupedItem],
                   exampleStoreFiltered) :=
  C9_select_date_range_idempotent exampleStore "sid-1" 1 31
    (RangeResult.needsClarification 1 [exampleGroupedItem]) exampleStoreFiltered
    (by rfl)

/-- C10: with the omitted-argument defaults of `expenseAPI.uploadStatement`
(`clearPrevious = true`, matching the wizard's own initial `clearPrevious`
setting), the assembled form body always carries `clear_previous` with the
string value `true`, and it carries a `password` field exactly when the
password argument is neither the JS null nor the empty string. -/
theorem C10_uploadStatement_defaults (file : String) (pw : Option String) :
    initState.clearPrevious = true ∧
    uploadStatementDefaultClearPrevious = true ∧
    formFieldValue (uploadStatementFormData file pw uploadStatementDefaultClearPrevious)
      "clear_previous" = some "true" ∧
    (hasFormField (uploadStatementFormData file pw uploadStatementDefaultClearPrevious)
      "password" = true ↔ ∃ p, pw = some p ∧ p ≠ "") := by
  refine ⟨rfl, rfl, ?_, ?_⟩
  · cases pw with
    | none =>
      simp [uploadStatementFormData, formFieldValue, uploadStatementDefaultClearPrevious]
    | some p =>
      by_cases hp : p = "" <;>
        simp [uploadStatementFormData, formFieldValue,
          uploadStatementDefaultClearPrevious, hp]
  · cases pw with
    | none =>
      simp [uploadStatementFormData, hasFormField, uploadStatementDefaultClearPrevious]
    | some p =>
      by_cases hp : p = "" <;>
        simp [uploadStatementFormData, hasFormField,
          uploadStatementDefaultClearPrevious, hp]

end BudgetTracker
